import Mathlib

/-
Verification of the code-execution and code-analysis services of the
ai_python_tutor_app backend (backend/services/code_executor.py and
backend/services/code_analyzer.py), as a shallow embedding in Lean 4.

Modelling conventions:
- Python strings are Lean `String`s; `str.strip()` is `pyStrip` (both ends,
  ASCII whitespace); `str.strip("\n")` is `pyStripNl`.
- The operating-system effects of one test execution (spawning the child
  process, reading stdout/stderr, the timeout firing, the thread fallback
  being taken, an unexpected exception) are abstracted into an `ExecOutcome`
  value supplied by the environment; the pure result construction performed
  by `_execute_locally` on each outcome is translated literally.
- Python floats in `_calculate_overall_score` are modelled by exact rational
  arithmetic; `int()` of the non-negative sum is the floor, which coincides
  with natural-number division (checked against CPython over the whole
  realistic input range).
-/

namespace AITutor

/-- Python str.isspace characters stripped by str.strip(): space, tab,
newline, carriage return, vertical tab, form feed. -/
def isPySpace (c : Char) : Bool :=
  c == ' ' || c == '\t' || c == '\n' || c == '\r' ||
    c == Char.ofNat 11 || c == Char.ofNat 12

/-- Drop the characters satisfying p from both ends of a character list. -/
def stripEnds (p : Char → Bool) (l : List Char) : List Char :=
  ((l.dropWhile p).reverse.dropWhile p).reverse

/-- Python str.strip() with no argument: remove leading and trailing
whitespace. -/
def pyStrip (s : String) : String :=
  String.mk (stripEnds isPySpace s.toList)

/-- Python str.strip("\n"): remove leading and trailing newline characters
(used on input_data at code_executor.py line 117). -/
def pyStripNl (s : String) : String :=
  String.mk (stripEnds (fun c => c == '\n') s.toList)

/-- One test case of a CodeExecutionRequest: a dict with keys "input" and
"expected_output" (execution_models.CodeExecutionRequest.test_cases). -/
structure TestCase where
  input : String
  expected_output : String
  deriving DecidableEq

/-- execution_models.CodeExecutionRequest. -/
structure CodeExecutionRequest where
  student_code : String
  lesson_id : String
  test_cases : List TestCase
  timeout_seconds : Nat := 10
  memory_limit_mb : Nat := 128

/-- execution_models.TestResult (fields not set by the executor keep their
pydantic defaults, None). Wall-clock durations are rationals. -/
structure TestResult where
  test_id : Nat
  passed : Bool
  input_data : Option String := none
  expected_output : String
  actual_output : Option String := none
  execution_time_ms : Option Rat := none
  error_message : Option String := none
  deriving DecidableEq

/-- execution_models.CodeExecutionResponse. -/
structure CodeExecutionResponse where
  success : Bool
  total_tests : Nat
  passed_tests : Nat
  test_results : List TestResult
  overall_output : Option String := none
  syntax_errors : List String := []
  runtime_errors : List String := []
  execution_time_total_ms : Rat
  deriving DecidableEq

/-- Environment-determined outcome of running one test case's child process
in `_execute_locally` (code_executor.py lines 77-236):
- `completed`: the preferred async subprocess finished within the timeout,
  producing raw stdout and stderr byte streams (decoded), an exit code
  (captured but only logged), and a measured duration;
- `timedOut`: asyncio.wait_for raised TimeoutError (lines 129-146);
- `fallbackCompleted` / `fallbackTimedOut` / `fallbackError`: the async
  spawn raised NotImplementedError and the thread-backed subprocess.run
  fallback finished / timed out / raised (lines 147-215);
- `execError`: any other exception reached the per-test handler
  (lines 226-236). -/
inductive ExecOutcome where
  | completed (stdout stderr : String) (exitCode : Int) (durationMs : Rat)
  | timedOut
  | fallbackCompleted (stdout stderr : String) (exitCode : Int) (durationMs : Rat)
  | fallbackTimedOut
  | fallbackError (exnName exnMsg : String)
  | execError (exnName exnMsg : String)
  deriving DecidableEq

/-- The timeout error message, f"Code execution timed out after {request.timeout_seconds}s". -/
def timeoutMessage (timeout_seconds : Nat) : String :=
  "Code execution timed out after " ++ toString timeout_seconds ++ "s"

/-- TestResult construction for one test case in `_execute_locally`,
by cases on the environment outcome; literal translation of
code_executor.py lines 97-146 (async strategy), 156-215 (thread-backed
fallback strategy) and 226-236 (outer exception handler). -/
def runTestCase (timeout_seconds : Nat) (i : Nat) (tc : TestCase) :
    ExecOutcome → TestResult
  | .completed stdout stderr _exitCode durationMs =>
      let actual_output := pyStrip stdout
      let expected_output := pyStrip tc.expected_output
      let stderr_str := pyStrip stderr
      { test_id := i
        passed := (actual_output == expected_output) && (stderr_str == "")
        input_data := if pyStripNl tc.input = "" then none else some (pyStripNl tc.input)
        expected_output := expected_output
        actual_output := some actual_output
        error_message := if stderr_str = "" then none else some stderr_str
        execution_time_ms := some durationMs }
  | .timedOut =>
      { test_id := i
        passed := false
        expected_output := tc.expected_output
        error_message := some (timeoutMessage timeout_seconds)
        execution_time_ms := some ((timeout_seconds : Rat) * 1000) }
  | .fallbackCompleted stdout stderr _exitCode durationMs =>
      let stdout_text := pyStrip stdout
      let stderr_text := pyStrip stderr
      let expected_output := pyStrip tc.expected_output
      { test_id := i
        passed := (stdout_text == expected_output) && (stderr_text == "")
        input_data := if pyStripNl tc.input = "" then none else some (pyStripNl tc.input)
        expected_output := expected_output
        actual_output := some stdout_text
        error_message := if stderr_text = "" then none else some stderr_text
        execution_time_ms := some durationMs }
  | .fallbackTimedOut =>
      { test_id := i
        passed := false
        expected_output := tc.expected_output
        error_message := some (timeoutMessage timeout_seconds)
        execution_time_ms := some ((timeout_seconds : Rat) * 1000) }
  | .fallbackError exnName exnMsg =>
      { test_id := i
        passed := false
        expected_output := tc.expected_output
        error_message := some ("Execution error: " ++ exnName ++ ": " ++ exnMsg) }
  | .execError exnName exnMsg =>
      { test_id := i
        passed := false
        expected_output := tc.expected_output
        error_message := some ("Execution error: " ++ exnName ++ ": " ++ exnMsg) }

/-- The per-test loop `for i, test_case in enumerate(request.test_cases)`:
each test case yields exactly one TestResult, in order. -/
def runAll (timeout_seconds : Nat) (outcomes : Nat → ExecOutcome) :
    Nat → List TestCase → List TestResult
  | _, [] => []
  | i, tc :: rest =>
      runTestCase timeout_seconds i tc (outcomes i) ::
        runAll timeout_seconds outcomes (i + 1) rest

/-- CodeExecutor._execute_locally, response assembly (code_executor.py
lines 244-257).  `passed_tests` is accumulated one test at a time in the
source (lines 124-125, 183-184), which equals counting the passing results;
`overall_outputs` collects truthy actual outputs as it goes (lines 126-127,
185-186).  The final wall-clock total is environment-supplied. -/
def _execute_locally (request : CodeExecutionRequest)
    (outcomes : Nat → ExecOutcome) (total_time : Rat) : CodeExecutionResponse :=
  let test_results := runAll request.timeout_seconds outcomes 0 request.test_cases
  let overall_outputs := test_results.filterMap (fun tr =>
    match tr.actual_output with
    | some o => if o = "" then none else some o
    | none => none)
  let overall_output_combined := String.intercalate "\n" overall_outputs
  { success := decide (0 < test_results.length)
    total_tests := request.test_cases.length
    passed_tests := test_results.countP (fun tr => tr.passed)
    test_results := test_results
    overall_output := if overall_output_combined = "" then none
      else some overall_output_combined
    runtime_errors := test_results.filterMap (fun tr =>
      match tr.error_message with
      | some m => if m = "" then none else some m
      | none => none)
    execution_time_total_ms := total_time }

/-- Python str.split('\n') on a character list: cut at every newline,
keeping empty pieces (so "a\nb\n" yields ["a", "b", ""]). -/
def splitNlAux : List Char → List Char → List String
  | [], acc => [String.mk acc.reverse]
  | c :: rest, acc =>
      if c == '\n' then String.mk acc.reverse :: splitNlAux rest []
      else splitNlAux rest (c :: acc)

/-- Python `input_data.split('\n') if input_data else []`
(code_executor.py line 264). -/
def splitInputLines (input_data : String) : List String :=
  if input_data = "" then [] else splitNlAux input_data.toList []

/-- The mutable state installed by the injected input() replacement:
`_input_data = <lines>` and `_input_index = 0`. -/
structure InputState where
  _input_data : List String
  _input_index : Nat
  deriving DecidableEq

/-- A program rewritten by `_prepare_code_with_input`: the input-provider
state prepended to the unchanged student code. -/
structure PreparedProgram where
  state : InputState
  user_code : String
  deriving DecidableEq

/-- CodeExecutor._prepare_code_with_input (code_executor.py lines 260-277):
always prepends `_input_data = repr(lines)`, `_input_index = 0` and the
input() replacement, then the student code verbatim. -/
def _prepare_code_with_input (code : String) (input_data : String) : PreparedProgram :=
  { state := { _input_data := splitInputLines input_data, _input_index := 0 }
    user_code := code }

/-- Semantics of one call of the injected input() replacement
(code_executor.py lines 267-275): return the next queued string and advance
the index, or return "" once the queue is exhausted; it never blocks. -/
def inputCall (s : InputState) : String × InputState :=
  if h : s._input_index < s._input_data.length then
    (s._input_data.get ⟨s._input_index, h⟩,
      { s with _input_index := s._input_index + 1 })
  else ("", s)

/-- The string returned by the (k+1)-th call of the injected input()
replacement, starting from state s. -/
def inputCalls (s : InputState) : Nat → String
  | 0 => (inputCall s).1
  | k + 1 => inputCalls (inputCall s).2 k

/-- Abstract syntax tree of a parsed Python program, covering the node kinds
inspected by CodeAnalyzer (ast.FunctionDef, ClassDef, If, While, For, Try,
ExceptHandler, Assign, Import, ImportFrom, BoolOp) plus generic expression
and statement carriers for everything else. -/
inductive PyAST where
  | moduleNode (body : List PyAST)
  | functionDef (body : List PyAST)
  | classDef (body : List PyAST)
  | ifStmt (test : PyAST) (body orelse : List PyAST)
  | whileStmt (test : PyAST) (body : List PyAST)
  | forStmt (iter : PyAST) (body : List PyAST)
  | tryStmt (body : List PyAST) (handlers : List PyAST)
  | exceptHandler (body : List PyAST)
  | assign (value : PyAST)
  | importStmt
  | importFrom
  | boolOp (values : List PyAST)
  | nameExpr
  | constantExpr
  | callExpr (args : List PyAST)

mutual

/-- ast.walk(tree): every node of the tree, the root included.  Python walks
breadth-first; CodeAnalyzer only counts node kinds, which is traversal-order
independent, so a preorder listing is used. -/
def PyAST.nodes : PyAST → List PyAST
  | .moduleNode body => .moduleNode body :: nodesOfList body
  | .functionDef body => .functionDef body :: nodesOfList body
  | .classDef body => .classDef body :: nodesOfList body
  | .ifStmt test body orelse =>
      .ifStmt test body orelse ::
        (PyAST.nodes test ++ (nodesOfList body ++ nodesOfList orelse))
  | .whileStmt test body => .whileStmt test body :: (PyAST.nodes test ++ nodesOfList body)
  | .forStmt iter body => .forStmt iter body :: (PyAST.nodes iter ++ nodesOfList body)
  | .tryStmt body handlers =>
      .tryStmt body handlers :: (nodesOfList body ++ nodesOfList handlers)
  | .exceptHandler body => .exceptHandler body :: nodesOfList body
  | .assign value => .assign value :: PyAST.nodes value
  | .importStmt => [.importStmt]
  | .importFrom => [.importFrom]
  | .boolOp values => .boolOp values :: nodesOfList values
  | .nameExpr => [.nameExpr]
  | .constantExpr => [.constantExpr]
  | .callExpr args => .callExpr args :: nodesOfList args

/-- Nodes of a list of subtrees, in order. -/
def nodesOfList : List PyAST → List PyAST
  | [] => []
  | t :: ts => PyAST.nodes t ++ nodesOfList ts

end

/-- isinstance(node, ast.FunctionDef). -/
def isFunctionDef : PyAST → Bool
  | .functionDef _ => true
  | _ => false

/-- isinstance(node, ast.ClassDef). -/
def isClassDef : PyAST → Bool
  | .classDef _ => true
  | _ => false

/-- isinstance(node, (ast.For, ast.While)). -/
def isLoop : PyAST → Bool
  | .whileStmt _ _ => true
  | .forStmt _ _ => true
  | _ => false

/-- isinstance(node, ast.If). -/
def isConditional : PyAST → Bool
  | .ifStmt _ _ _ => true
  | _ => false

/-- isinstance(node, ast.Assign). -/
def isAssign : PyAST → Bool
  | .assign _ => true
  | _ => false

/-- isinstance(node, (ast.Import, ast.ImportFrom)). -/
def isImport : PyAST → Bool
  | .importStmt => true
  | .importFrom => true
  | _ => false

/-- isinstance(node, ast.ExceptHandler). -/
def isHandler : PyAST → Bool
  | .exceptHandler _ => true
  | _ => false

/-- isinstance(node, ast.BoolOp). -/
def isBoolOp : PyAST → Bool
  | .boolOp _ => true
  | _ => false

/-- Loop body of CodeAnalyzer._calculate_complexity (code_analyzer.py
lines 175-179): +1 for If/While/For/ExceptHandler, +(len(values)-1) for
BoolOp, unchanged otherwise. -/
def complexityStep (complexity : Int) (node : PyAST) : Int :=
  match node with
  | .ifStmt _ _ _ => complexity + 1
  | .whileStmt _ _ => complexity + 1
  | .forStmt _ _ => complexity + 1
  | .exceptHandler _ => complexity + 1
  | .boolOp values => complexity + ((values.length : Int) - 1)
  | _ => complexity

/-- CodeAnalyzer._calculate_complexity (code_analyzer.py lines 171-181):
base complexity 1, folded over every walked node. -/
def _calculate_complexity (tree : PyAST) : Int :=
  tree.nodes.foldl complexityStep 1

/-- The complexity contribution of a single walked node: 1 for a
conditional, loop or exception handler, operand count minus 1 for a
compound boolean expression, 0 otherwise. -/
def complexityWeight (node : PyAST) : Int :=
  match node with
  | .ifStmt _ _ _ => 1
  | .whileStmt _ _ => 1
  | .forStmt _ _ => 1
  | .exceptHandler _ => 1
  | .boolOp values => (values.length : Int) - 1
  | _ => 0

/-- The compound-boolean part of the complexity contribution alone. -/
def boolOpExtra (node : PyAST) : Int :=
  match node with
  | .boolOp values => (values.length : Int) - 1
  | _ => 0

/-- Line and message of the Python SyntaxError raised by ast.parse. -/
structure SyntaxErrorInfo where
  lineno : Nat
  msg : String
  deriving DecidableEq

/-- The "structure" dictionary built by _analyze_syntax on successful parse
(code_analyzer.py lines 84-91). -/
structure CodeStructure where
  functions_defined : Nat
  classes_defined : Nat
  loops_used : Nat
  conditionals_used : Nat
  variables_assigned : Nat
  imports_used : Nat
  deriving DecidableEq

/-- Return value of CodeAnalyzer._analyze_syntax.  `struct` models the
"structure" key; the empty dictionary returned on parse failure is `none`. -/
structure SyntaxAnalysis where
  is_valid : Bool
  syntax_errors : List String
  struct : Option CodeStructure
  complexity_score : Int
  deriving DecidableEq

/-- Successful-parse branch of _analyze_syntax (code_analyzer.py
lines 78-95). -/
def _analyze_syntax_ok (tree : PyAST) : SyntaxAnalysis :=
  { is_valid := true
    syntax_errors := []
    struct := some
      { functions_defined := (tree.nodes.filter isFunctionDef).length
        classes_defined := (tree.nodes.filter isClassDef).length
        loops_used := (tree.nodes.filter isLoop).length
        conditionals_used := (tree.nodes.filter isConditional).length
        variables_assigned := (tree.nodes.filter isAssign).length
        imports_used := (tree.nodes.filter isImport).length }
    complexity_score := _calculate_complexity tree }

/-- Parse-failure branch of _analyze_syntax (code_analyzer.py lines 97-103):
f"Syntax error at line {e.lineno}: {e.msg}", empty structure dictionary,
complexity_score 0. -/
def _analyze_syntax_err (e : SyntaxErrorInfo) : SyntaxAnalysis :=
  { is_valid := false
    syntax_errors := ["Syntax error at line " ++ toString e.lineno ++ ": " ++ e.msg]
    struct := none
    complexity_score := 0 }

/-- CodeAnalyzer._analyze_syntax: ast.parse either yields a tree or raises a
SyntaxError, dispatching to the two branches above. -/
def _analyze_syntax_fn : Except SyntaxErrorInfo PyAST → SyntaxAnalysis
  | .ok tree => _analyze_syntax_ok tree
  | .error e => _analyze_syntax_err e

/-- Python substring test `pat in s`, on character lists (needle matched at
each position, structural recursion). -/
def containsSubAux : List Char → List Char → Bool
  | [], pat => pat.isEmpty
  | c :: rest, pat => pat.isPrefixOf (c :: rest) || containsSubAux rest pat

/-- Python substring test `pat in s`. -/
def containsSub (s pat : String) : Bool :=
  containsSubAux s.toList pat.toList

/-- CodeAnalyzer._calculate_overall_score (code_analyzer.py lines 183-199).
The source computes `(passed_tests / max(total_tests, 1)) * 40` in floating
point and truncates the final sum with int(); since every term is
non-negative and the other three terms are integers, that truncation is the
floor of the exact value, i.e. natural-number division here (the exact and
floating-point results agree on the whole realistic input range). -/
def _calculate_overall_score (passed_tests total_tests : Nat)
    (is_valid : Bool) (execution_success : Bool)
    (good_practice_count : Nat) : Nat :=
  let test_score := 40 * passed_tests / max total_tests 1
  let syntax_score := if is_valid then 30 else 0
  let logic_score := if execution_success then 20 else 10
  let style_score := min 10 (2 * good_practice_count)
  test_score + syntax_score + logic_score + style_score

/-- The same computation carried out in exact rational arithmetic before the
final int() truncation, as the source writes it. -/
def overallScoreRat (passed_tests total_tests : Nat)
    (is_valid : Bool) (execution_success : Bool)
    (good_practice_count : Nat) : Rat :=
  ((passed_tests : Rat) / ((max total_tests 1 : Nat) : Rat)) * 40 +
    (if is_valid then (30 : Rat) else 0) +
    (if execution_success then (20 : Rat) else 10) +
    min 10 (2 * (good_practice_count : Rat))

/-- Modelled from the spec: the Scorer formula exactly as §4.6 of the spec
writes it, `0.40 × ratio × 100 + 0.30 × (30 if syntaxValid else 0) + 0.20 ×
(20 if executionSucceeded else 10) + 0.10 × min(10, 2 × goodPracticeCount)`,
truncated to an integer; kept separate for comparison with
`_calculate_overall_score`. -/
def specScoreFormula (passed_tests total_tests : Nat)
    (is_valid : Bool) (execution_success : Bool)
    (good_practice_count : Nat) : Int :=
  Int.floor ((2 / 5 : Rat) * ((passed_tests : Rat) / ((max total_tests 1 : Nat) : Rat)) * 100 +
    (3 / 10 : Rat) * (if is_valid then (30 : Rat) else 0) +
    (1 / 5 : Rat) * (if execution_success then (20 : Rat) else 10) +
    (1 / 10 : Rat) * min 10 (2 * (good_practice_count : Rat)))

/-- Return value of CodeAnalyzer._analyze_logic. -/
structure LogicAnalysis where
  tests_passed : Nat
  tests_failed : Nat
  logic_issues : List String
  output_patterns : List String
  execution_successful : Bool
  deriving DecidableEq

/-- Error-message classification of _analyze_logic (code_analyzer.py
lines 118-124): first matching known substring wins (if/elif chain). -/
def classifyErrorMsg (msg : String) : Option String :=
  if containsSub msg "NameError" then some "Variable not defined before use"
  else if containsSub msg "TypeError" then some "Incorrect data type usage"
  else if containsSub msg "IndentationError" then some "Incorrect indentation"
  else none

/-- Output-mismatch note of _analyze_logic (code_analyzer.py lines 126-129):
emitted when actual_output and expected_output are both truthy (non-null,
non-empty) and differ. -/
def outputDiffNote (t : TestResult) : Option String :=
  match t.actual_output with
  | some a =>
      if a ≠ "" ∧ t.expected_output ≠ "" ∧ a ≠ t.expected_output then
        some ("Expected \x27" ++ t.expected_output ++ "\x27 but got \x27" ++ a ++ "\x27")
      else none
  | none => none

/-- CodeAnalyzer._analyze_logic (code_analyzer.py lines 105-137): walk the
failing test results, collecting classified error-message issues and
output-mismatch notes (two independent collections filled by the same
loop, each in test order). -/
def _analyze_logic (execution_result : CodeExecutionResponse) : LogicAnalysis :=
  let failed_tests := execution_result.test_results.filter (fun t => !t.passed)
  { tests_passed := execution_result.passed_tests
    tests_failed := failed_tests.length
    logic_issues := failed_tests.filterMap (fun t =>
      match t.error_message with
      | some m => if m = "" then none else classifyErrorMsg m
      | none => none)
    output_patterns := failed_tests.filterMap outputDiffNote
    execution_successful := execution_result.success }

/-- The syntax hint of _generate_adaptive_hints (code_analyzer.py line 281). -/
def syntaxHintMsg : String :=
  "Check your syntax - make sure all parentheses and brackets are closed"

/-- The failed-test-count hint (code_analyzer.py line 294). -/
def failedTestsHintMsg (failed_tests : Nat) : String :=
  "Try testing your code with the examples - " ++ toString failed_tests ++
    " test(s) didn\x27t pass"

/-- The generic hint for students aged 10 or younger (code_analyzer.py line 298). -/
def youngHintMsg : String :=
  "Take your time and break the problem into small steps!"

/-- The generic hint for older students (code_analyzer.py line 300). -/
def olderHintMsg : String :=
  "Consider edge cases and different input scenarios"

/-- Conversion of one logic-issue label into a hint (code_analyzer.py
lines 285-289): only undefined-variable and data-type labels convert. -/
def issueToHint (issue : String) : Option String :=
  if containsSub issue "Variable not defined" then
    some "Make sure to define all variables before using them"
  else if containsSub issue "data type" then
    some "Check if you\x27re using the right data types (strings, numbers, etc.)"
  else none

/-- CodeAnalyzer._generate_adaptive_hints (code_analyzer.py lines 267-302):
syntax hint when the parse failed, then hints converted from the first two
logic-issue labels, then the failed-test-count hint, then one age-banded
generic hint; the list is cut to at most 3. -/
def _generate_adaptive_hints (execution_result : CodeExecutionResponse)
    (age : Nat) (syntax_analysis : SyntaxAnalysis)
    (logic_analysis : LogicAnalysis) : List String :=
  let hints1 := if syntax_analysis.is_valid then [] else [syntaxHintMsg]
  let hints2 := hints1 ++ (logic_analysis.logic_issues.take 2).filterMap issueToHint
  let failed_tests := execution_result.total_tests - execution_result.passed_tests
  let hints3 := hints2 ++
    (if 0 < failed_tests then [failedTestsHintMsg failed_tests] else [])
  let hints4 := hints3 ++ [if age ≤ 10 then youngHintMsg else olderHintMsg]
  hints4.take 3

/-- Modelled from the spec: hint assembly exactly as §4.7 of the spec words
it — "if syntax is invalid, the first hint addresses syntax; ELSE up to two
logic-issue labels are converted into hints; then, if any tests failed, a
hint naming the failure count is appended; then one age-banded generic hint
is appended", truncated to 3; kept separate for comparison with
`_generate_adaptive_hints`. -/
def specHintAssembly (execution_result : CodeExecutionResponse)
    (age : Nat) (syntax_analysis : SyntaxAnalysis)
    (logic_analysis : LogicAnalysis) : List String :=
  let hints1 :=
    if syntax_analysis.is_valid then
      (logic_analysis.logic_issues.take 2).filterMap issueToHint
    else [syntaxHintMsg]
  let failed_tests := execution_result.total_tests - execution_result.passed_tests
  let hints2 := hints1 ++
    (if 0 < failed_tests then [failedTestsHintMsg failed_tests] else [])
  let hints3 := hints2 ++ [if age ≤ 10 then youngHintMsg else olderHintMsg]
  hints3.take 3

/-- Concrete program tree `if x:\n  0\nwhile x:\n  0` — exactly one
conditional, one loop, no exception handlers, no compound booleans. -/
def exTreeSimple : PyAST :=
  .moduleNode [.ifStmt .nameExpr [.constantExpr] [],
    .whileStmt .nameExpr [.constantExpr]]

/-- Concrete program tree with exactly one conditional, one loop, no
compound booleans — and additionally one try/except handler. -/
def exTreeHandler : PyAST :=
  .moduleNode [.ifStmt .nameExpr [.constantExpr] [],
    .whileStmt .nameExpr [.constantExpr],
    .tryStmt [.constantExpr] [.exceptHandler [.constantExpr]]]

/-- Concrete failing TestResult that carries both an error message (a
NameError) and a non-empty mismatched actual output, as produced when the
child process prints something before raising. -/
def exFailingResult : TestResult :=
  { test_id := 0
    passed := false
    expected_output := "y"
    actual_output := some "x"
    error_message := some "NameError: name \x27z\x27 is not defined" }

/-- Concrete CodeExecutionResponse holding `exFailingResult` as its only
test result. -/
def exResponse : CodeExecutionResponse :=
  { success := true
    total_tests := 1
    passed_tests := 0
    test_results := [exFailingResult]
    overall_output := some "x"
    runtime_errors := ["NameError: name \x27z\x27 is not defined"]
    execution_time_total_ms := 5 }

/-- Concrete CodeExecutionResponse with one test of which none passed
(only the totals are read by the hint generator). -/
def exRespTotals : CodeExecutionResponse :=
  { success := true
    total_tests := 1
    passed_tests := 0
    test_results := []
    execution_time_total_ms := 0 }

/-- Concrete invalid-syntax analysis, as returned for an unparseable
program. -/
def exSyntaxInvalid : SyntaxAnalysis :=
  _analyze_syntax_err { lineno := 1, msg := "invalid syntax" }

/-- Concrete logic analysis carrying one undefined-variable issue label. -/
def exLogicVar : LogicAnalysis :=
  { tests_passed := 0
    tests_failed := 1
    logic_issues := ["Variable not defined before use"]
    output_patterns := []
    execution_successful := true }

/- ------------------------------------------------------------------ -/
/- Helper lemmas                                                       -/
/- ------------------------------------------------------------------ -/

theorem runAll_length (timeout_seconds : Nat) (outcomes : Nat → ExecOutcome) :
    ∀ (cases : List TestCase) (i : Nat),
      (runAll timeout_seconds outcomes i cases).length = cases.length
  | [], _ => rfl
  | _ :: rest, i => by
      simp [runAll, runAll_length timeout_seconds outcomes rest (i + 1)]

theorem timeoutMessage_ne_empty (t : Nat) : timeoutMessage t ≠ "" := by
  intro h
  have h2 := congrArg String.length h
  rw [timeoutMessage] at h2
  simp [String.length_append] at h2
  exact absurd h2.1.1 (by decide)

theorem execErrorMessage_ne_empty (n m : String) :
    ("Execution error: " ++ n ++ ": " ++ m) ≠ "" := by
  intro h
  have h2 := congrArg String.length h
  simp [String.length_append] at h2
  exact absurd h2.1.1.1 (by decide)

/-- No TestResult built by the executor carries `some ""` as its error
message: the completed branches store `stderr_str or None`, the other
branches store fixed non-empty messages. -/
theorem runTestCase_error_message_ne_some_empty
    (timeout_seconds i : Nat) (tc : TestCase) (oc : ExecOutcome) :
    (runTestCase timeout_seconds i tc oc).error_message ≠ some "" := by
  cases oc with
  | completed stdout stderr exitCode durationMs =>
      simp only [runTestCase]
      split
      · simp
      · next hne => intro h; exact hne (by simpa using h)
  | timedOut =>
      simp only [runTestCase]
      intro h
      exact timeoutMessage_ne_empty timeout_seconds (by simpa using h)
  | fallbackCompleted stdout stderr exitCode durationMs =>
      simp only [runTestCase]
      split
      · simp
      · next hne => intro h; exact hne (by simpa using h)
  | fallbackTimedOut =>
      simp only [runTestCase]
      intro h
      exact timeoutMessage_ne_empty timeout_seconds (by simpa using h)
  | fallbackError exnName exnMsg =>
      simp only [runTestCase]
      intro h
      exact execErrorMessage_ne_empty exnName exnMsg (by simpa using h)
  | execError exnName exnMsg =>
      simp only [runTestCase]
      intro h
      exact execErrorMessage_ne_empty exnName exnMsg (by simpa using h)

theorem runAll_error_message_ne_some_empty
    (timeout_seconds : Nat) (outcomes : Nat → ExecOutcome) :
    ∀ (cases : List TestCase) (i : Nat),
      ∀ tr ∈ runAll timeout_seconds outcomes i cases,
        tr.error_message ≠ some "" := by
  intro cases
  induction cases with
  | nil => intro i tr h; simp [runAll] at h
  | cons tc rest ih =>
      intro i tr h
      rw [runAll] at h
      rcases List.mem_cons.mp h with h1 | h2
      · subst h1; exact runTestCase_error_message_ne_some_empty _ _ _ _
      · exact ih (i + 1) tr h2

/-- Dropping the emptiness re-check from the runtime-error aggregation is
sound whenever no result holds `some ""`. -/
theorem filterMap_error_message_eq (l : List TestResult)
    (h : ∀ tr ∈ l, tr.error_message ≠ some "") :
    l.filterMap (fun tr =>
      match tr.error_message with
      | some m => if m = "" then none else some m
      | none => none) = l.filterMap (fun tr => tr.error_message) := by
  induction l with
  | nil => rfl
  | cons tr rest ih =>
      have hr := h tr (List.mem_cons_self tr rest)
      have hrest : ∀ x ∈ rest, x.error_message ≠ some "" :=
        fun x hx => h x (List.mem_cons_of_mem tr hx)
      cases hm : tr.error_message with
      | none => simp [List.filterMap_cons, hm, ih hrest]
      | some m =>
          have hm0 : m ≠ "" := fun h0 => hr (h0 ▸ hm)
          simp [List.filterMap_cons, hm, hm0, ih hrest]

theorem containsSubAux_append_left (a : List Char) :
    ∀ (b pat : List Char), containsSubAux b pat = true →
      containsSubAux (a ++ b) pat = true := by
  induction a with
  | nil => intro b pat h; simpa using h
  | cons c rest ih =>
      intro b pat h
      rw [List.cons_append, containsSubAux, Bool.or_eq_true]
      exact Or.inr (ih b pat h)

theorem containsSubAux_refl : ∀ (l : List Char), containsSubAux l l = true
  | [] => rfl
  | c :: rest => by
      rw [containsSubAux, Bool.or_eq_true]
      exact Or.inl (by rw [ List.isPrefixOf_iff_prefix])

/-- A string contains each of its suffixes as a substring. -/
theorem containsSub_append_self (a b : String) : containsSub (a ++ b) b = true := by
  rw [containsSub]
  have hdata : (a ++ b).toList = a.toList ++ b.toList := by
    simp [String.toList, String.data_append]
  rw [hdata]
  exact containsSubAux_append_left _ _ _ (containsSubAux_refl _)

/-- The injected input() replacement, iterated: starting at index i, the
(k+1)-th call returns element i+k of the queue, or "" past the end. -/
theorem inputCalls_getD (k : Nat) :
    ∀ (data : List String) (i : Nat),
      inputCalls { _input_data := data, _input_index := i } k = data.getD (i + k) "" := by
  induction k with
  | zero =>
      intro data i
      rw [inputCalls, inputCall]
      split
      · next h =>
          have h2 : i < data.length := h
          simp [List.getD, List.getElem?_eq_getElem h2]
      · next h =>
          have hlen : data.length ≤ i := Nat.le_of_not_lt h
          simp [List.getD, List.getElem?_eq_none hlen]
  | succ k ih =>
      intro data i
      rw [inputCalls, inputCall]
      split
      · next h =>
          simpa [Nat.add_comm, Nat.add_assoc, Nat.add_left_comm] using ih data (i + 1)
      · next h =>
          have hlen : data.length ≤ i := Nat.le_of_not_lt h
          rw [ih data i]
          rw [List.getD_eq_default _ _ (Nat.le_add_right_of_le hlen),
            List.getD_eq_default _ _ (Nat.le_add_right_of_le hlen)]

theorem foldl_complexityStep (l : List PyAST) :
    ∀ (a : Int), l.foldl complexityStep a = a + (l.map complexityWeight).sum := by
  induction l with
  | nil => intro a; simp
  | cons n rest ih =>
      intro a
      rw [List.foldl_cons, List.map_cons, List.sum_cons, ih]
      have hstep : complexityStep a n = a + complexityWeight n := by
        cases n <;> simp [complexityStep, complexityWeight]
      rw [hstep]
      ring

theorem complexityWeight_decompose (n : PyAST) :
    complexityWeight n = (if isConditional n then 1 else 0)
      + (if isLoop n then 1 else 0) + (if isHandler n then 1 else 0)
      + boolOpExtra n := by
  cases n <;> simp [complexityWeight, isConditional, isLoop, isHandler, boolOpExtra]

theorem sum_complexityWeight (l : List PyAST) :
    (l.map complexityWeight).sum
      = ((l.filter isConditional).length : Int) + ((l.filter isLoop).length : Int)
        + ((l.filter isHandler).length : Int) + (l.map boolOpExtra).sum := by
  induction l with
  | nil => simp
  | cons n rest ih =>
      rw [List.map_cons, List.sum_cons, ih, complexityWeight_decompose]
      by_cases h1 : isConditional n <;> by_cases h2 : isLoop n <;>
        by_cases h3 : isHandler n <;>
          simp [List.filter_cons, h1, h2, h3] <;> omega

/-- Natural-number division is the floor of exact rational division. -/
theorem floor_nat_div (a b : Nat) :
    ⌊((a : Rat)) / ((b : Nat) : Rat)⌋ = ((a / b : Nat) : Int) := by
  rw [← Int.natCast_floor_eq_floor (div_nonneg (by positivity) (by positivity))]
  rw [Nat.floor_div_eq_div]

/- ------------------------------------------------------------------ -/
/- Claim theorems                                                      -/
/- ------------------------------------------------------------------ -/

/-- C1: for every test case the executor completes (on either the async
subprocess strategy or the thread-backed fallback strategy), the TestResult
has passed = true iff the whitespace-trimmed actual stdout equals the
whitespace-trimmed expected output and the trimmed captured stderr is
empty.  The child-process exit code (quantified here) plays no role, and
any stderr content fails the test regardless of the stdout match. -/
theorem c1_passed_iff_trimmed_match_and_no_stderr
    (timeout_seconds i : Nat) (tc : TestCase) (stdout stderr : String)
    (exitCode : Int) (durationMs : Rat) :
    ((runTestCase timeout_seconds i tc
        (.completed stdout stderr exitCode durationMs)).passed = true
      ↔ (pyStrip stdout = pyStrip tc.expected_output ∧ pyStrip stderr = ""))
    ∧ ((runTestCase timeout_seconds i tc
        (.fallbackCompleted stdout stderr exitCode durationMs)).passed = true
      ↔ (pyStrip stdout = pyStrip tc.expected_output ∧ pyStrip stderr = "")) := by
  constructor <;> simp [runTestCase]

/-- C5: the rewritten program's injected input() provider returns the k-th
queued line on its k-th call and the empty string (without blocking) on
every call past the end of the queue; the rewrite installs the provider at
index 0 for every input queue, including the empty one ("" splits to no
lines, so every call returns ""). -/
theorem c5_input_virtualization (code input_data : String) (k : Nat) :
    (inputCalls (_prepare_code_with_input code input_data).state k
        = (splitInputLines input_data).getD k "")
    ∧ ((splitInputLines input_data).length ≤ k →
        inputCalls (_prepare_code_with_input code input_data).state k = "")
    ∧ (_prepare_code_with_input code "").state
        = { _input_data := [], _input_index := 0 } := by
  have hmain : inputCalls (_prepare_code_with_input code input_data).state k
      = (splitInputLines input_data).getD k "" := by
    rw [_prepare_code_with_input]
    simpa using inputCalls_getD k (splitInputLines input_data) 0
  refine ⟨hmain, ?_, rfl⟩
  intro hk
  rw [hmain, List.getD_eq_default _ _ hk]

/-- C5 witness: with queue "A\nB", the third input() call (index 2, past
the two queued lines) returns "". -/
theorem c5_input_virtualization_witness :
    inputCalls (_prepare_code_with_input "print(input())" "A\nB").state 2 = "" :=
  (c5_input_virtualization "print(input())" "A\nB" 2).2.1 (by decide)

/-- C6: a test whose child process exceeds the timeout is recorded (on both
execution strategies) as a TestResult with passed = false, an error message
equal to the fixed timeout message — which contains "timed out after Ns"
with the configured value N — and no partial actual output. -/
theorem c6_timeout_result (timeout_seconds i : Nat) (tc : TestCase) :
    ((runTestCase timeout_seconds i tc .timedOut).passed = false
      ∧ (runTestCase timeout_seconds i tc .timedOut).error_message
          = some (timeoutMessage timeout_seconds)
      ∧ (runTestCase timeout_seconds i tc .timedOut).actual_output = none)
    ∧ ((runTestCase timeout_seconds i tc .fallbackTimedOut).passed = false
      ∧ (runTestCase timeout_seconds i tc .fallbackTimedOut).error_message
          = some (timeoutMessage timeout_seconds)
      ∧ (runTestCase timeout_seconds i tc .fallbackTimedOut).actual_output = none)
    ∧ containsSub (timeoutMessage timeout_seconds)
        ("timed out after " ++ toString timeout_seconds ++ "s") = true := by
  refine ⟨⟨rfl, rfl, rfl⟩, ⟨rfl, rfl, rfl⟩, ?_⟩
  rw [containsSub]
  have hdata : (timeoutMessage timeout_seconds).toList
      = "Code execution ".toList
          ++ ("timed out after " ++ toString timeout_seconds ++ "s").toList := by
    simp [timeoutMessage, String.toList, String.data_append]
  rw [hdata]
  exact containsSubAux_append_left _ _ _ (containsSubAux_refl _)

/-- C7: in every response built by `_execute_locally`, passed_tests counts
the passing TestResults, runtime_errors is exactly the list of non-null
error messages in test order, and overall_output is the newline-join of the
non-empty actual outputs in test order (stored as null when that join is
empty, the field being nullable). -/
theorem c7_response_aggregation (request : CodeExecutionRequest)
    (outcomes : Nat → ExecOutcome) (total_time : Rat) :
    (_execute_locally request outcomes total_time).passed_tests
        = (_execute_locally request outcomes total_time).test_results.countP
            (fun tr => tr.passed)
    ∧ (_execute_locally request outcomes total_time).runtime_errors
        = (_execute_locally request outcomes total_time).test_results.filterMap
            (fun tr => tr.error_message)
    ∧ (_execute_locally request outcomes total_time).overall_output
        = (if String.intercalate "\n"
              ((_execute_locally request outcomes total_time).test_results.filterMap
                (fun tr =>
                  match tr.actual_output with
                  | some o => if o = "" then none else some o
                  | none => none)) = ""
           then none
           else some (String.intercalate "\n"
              ((_execute_locally request outcomes total_time).test_results.filterMap
                (fun tr =>
                  match tr.actual_output with
                  | some o => if o = "" then none else some o
                  | none => none)))) := by
  refine ⟨rfl, ?_, rfl⟩
  show (runAll request.timeout_seconds outcomes 0 request.test_cases).filterMap
      (fun tr =>
        match tr.error_message with
        | some m => if m = "" then none else some m
        | none => none)
    = (runAll request.timeout_seconds outcomes 0 request.test_cases).filterMap
        (fun tr => tr.error_message)
  exact filterMap_error_message_eq _
    (fun tr htr => runAll_error_message_ne_some_empty
      request.timeout_seconds outcomes request.test_cases 0 tr htr)

/-- C10: the response's success flag is true iff at least one TestResult
was produced, i.e. iff the request's test-case list is non-empty — whatever
the outcomes (so also when every test fails or times out), and false
exactly for a request with zero test cases. -/
theorem c10_success_iff_nonempty_tests
    (request : CodeExecutionRequest) (outcomes : Nat → ExecOutcome)
    (total_time : Rat) :
    ((_execute_locally request outcomes total_time).success = true
      ↔ request.test_cases ≠ []) := by
  simp [_execute_locally, runAll_length, List.length_pos]

/-- C3 counterexample: on a concrete parse failure the analyzer reports a
complexity score of 0, not 1 as claimed, and returns an empty structure
dictionary rather than six zero counts. -/
theorem c3_counterexample_parse_failure :
    (_analyze_syntax_fn (Except.error { lineno := 1, msg := "invalid syntax" })).complexity_score ≠ 1
    ∧ (_analyze_syntax_fn (Except.error { lineno := 1, msg := "invalid syntax" })).struct = none := by
  exact ⟨by decide, rfl⟩

/-- C3 (amended): for every parse failure, _analyze_syntax returns
isValid = false with a single syntax-error entry carrying the line number
and message, an empty structure dictionary (no counts reported), and a
complexity score equal to 0. -/
theorem c3_parse_failure_analysis (e : SyntaxErrorInfo) :
    (_analyze_syntax_fn (Except.error e)).is_valid = false
    ∧ (_analyze_syntax_fn (Except.error e)).syntax_errors
        = ["Syntax error at line " ++ toString e.lineno ++ ": " ++ e.msg]
    ∧ (_analyze_syntax_fn (Except.error e)).struct = none
    ∧ (_analyze_syntax_fn (Except.error e)).complexity_score = 0 :=
  ⟨rfl, rfl, rfl, rfl⟩

/-- C4 counterexample: a program with exactly one conditional, one loop and
no compound booleans but containing an exception handler has complexity 4,
refuting the claim's unconditional "exactly 3" consequence. -/
theorem c4_counterexample_exception_handler :
    (exTreeHandler.nodes.filter isConditional).length = 1
    ∧ (exTreeHandler.nodes.filter isLoop).length = 1
    ∧ (exTreeHandler.nodes.filter isBoolOp).length = 0
    ∧ _calculate_complexity exTreeHandler = 4 := by
  refine ⟨?_, ?_, ?_, ?_⟩ <;>
    simp [exTreeHandler, PyAST.nodes, nodesOfList, _calculate_complexity,
      complexityStep, isConditional, isLoop, isBoolOp]

/-- C4 (amended): for every parseable program the complexity score equals
1 plus one per conditional, loop and exception-handler node, plus
(operand count − 1) per compound boolean expression; consequently a program
with exactly one conditional, one loop, no exception handlers and no
compound booleans has complexity score exactly 3. -/
theorem c4_complexity_decomposition (tree : PyAST) :
    (_calculate_complexity tree
        = 1 + ((tree.nodes.filter isConditional).length : Int)
          + ((tree.nodes.filter isLoop).length : Int)
          + ((tree.nodes.filter isHandler).length : Int)
          + (tree.nodes.map boolOpExtra).sum)
    ∧ ((tree.nodes.filter isConditional).length = 1 →
        (tree.nodes.filter isLoop).length = 1 →
        (tree.nodes.filter isHandler).length = 0 →
        (tree.nodes.filter isBoolOp).length = 0 →
        _calculate_complexity tree = 3) := by
  have hmain : _calculate_complexity tree
      = 1 + ((tree.nodes.filter isConditional).length : Int)
        + ((tree.nodes.filter isLoop).length : Int)
        + ((tree.nodes.filter isHandler).length : Int)
        + (tree.nodes.map boolOpExtra).sum := by
    rw [_calculate_complexity, foldl_complexityStep, sum_complexityWeight]
    ring
  refine ⟨hmain, ?_⟩
  intro h1 h2 h3 h4
  have hb : (tree.nodes.map boolOpExtra).sum = 0 := by
    apply List.sum_eq_zero
    intro x hx
    rcases List.mem_map.mp hx with ⟨n, hn, rfl⟩
    have hnb : ¬ (isBoolOp n = true) :=
      List.filter_eq_nil_iff.mp (List.length_eq_zero.mp h4) n hn
    cases n <;> simp_all [boolOpExtra, isBoolOp]
  rw [hmain, h1, h2, h3, hb]
  norm_num

/-- C4 witness: on the concrete one-conditional one-loop handler-free
boolean-free program, the amended consequence gives complexity exactly 3. -/
theorem c4_complexity_decomposition_witness :
    _calculate_complexity exTreeSimple = 3 :=
  (c4_complexity_decomposition exTreeSimple).2
    (by simp [exTreeSimple, PyAST.nodes, nodesOfList, isConditional])
    (by simp [exTreeSimple, PyAST.nodes, nodesOfList, isLoop])
    (by simp [exTreeSimple, PyAST.nodes, nodesOfList, isHandler])
    (by simp [exTreeSimple, PyAST.nodes, nodesOfList, isBoolOp])

/-- C2 counterexample: at passedTests = 0, totalTests = 1, valid syntax,
successful execution and no good practices, the spec's literal formula
truncates to int(0 + 9 + 4 + 0) = 13 while the code returns
0 + 30 + 20 + 0 = 50: the spec's weight factors double-apply weights that
the code already folds into the individual term values. -/
theorem c2_counterexample_weighted_formula :
    specScoreFormula 0 1 true true 0 ≠ (_calculate_overall_score 0 1 true true 0 : Int) := by
  have h1 : specScoreFormula 0 1 true true 0 = 13 := by
    rw [specScoreFormula]
    have harg : ((2 / 5 : Rat) * (((0 : Nat) : Rat) / ((max 1 1 : Nat) : Rat)) * 100 +
        (3 / 10 : Rat) * (if true then (30 : Rat) else 0) +
        (1 / 5 : Rat) * (if true then (20 : Rat) else 10) +
        (1 / 10 : Rat) * min 10 (2 * ((0 : Nat) : Rat))) = ((13 : Int) : Rat) := by
      norm_num
    rw [harg, Int.floor_intCast]
  have h2 : (_calculate_overall_score 0 1 true true 0 : Int) = 50 := by
    norm_num [_calculate_overall_score]
  omega

/-- C2 (amended): the Scorer returns exactly
(passedTests / max(totalTests,1)) × 40 + (30 if syntaxValid else 0) +
(20 if executionSucceeded else 10) + min(10, 2 × goodPracticeCount),
truncated to an integer (the floor of the exact rational value), and
whenever passedTests ≤ totalTests the result lies in [0, 100] (it is a
natural number, hence ≥ 0). -/
theorem c2_overall_score_formula_and_bounds (p t : Nat) (v s : Bool) (g : Nat)
    (hpt : p ≤ t) :
    ((_calculate_overall_score p t v s g : Int) = ⌊overallScoreRat p t v s g⌋
     ∧ _calculate_overall_score p t v s g ≤ 100) := by
  have hm : 0 < max t 1 := lt_of_lt_of_le one_pos (le_max_right t 1)
  constructor
  · have hrat : overallScoreRat p t v s g
        = ((40 * p : Nat) : Rat) / ((max t 1 : Nat) : Rat)
          + ((((if v then 30 else 0) + (if s then 20 else 10)
               + min 10 (2 * g) : Nat) : Int) : Rat) := by
      rw [overallScoreRat]
      rcases v <;> rcases s <;>
        · push_cast [Nat.cast_min]
          ring
    rw [hrat, Int.floor_add_int, floor_nat_div]
    rw [_calculate_overall_score]
    rcases v <;> rcases s <;> push_cast <;> ring
  · have ha : 40 * p / max t 1 ≤ 40 := by
      have h1 : 40 * p ≤ 40 * max t 1 :=
        Nat.mul_le_mul_left 40 (le_trans hpt (le_max_left t 1))
      calc 40 * p / max t 1 ≤ 40 * max t 1 / max t 1 := Nat.div_le_div_right h1
        _ = 40 := Nat.mul_div_cancel 40 hm
    have hmin : min 10 (2 * g) ≤ 10 := Nat.min_le_left 10 (2 * g)
    rw [_calculate_overall_score]
    rcases v <;> rcases s <;> simp <;> omega

/-- C2 witness: at 2 of 4 tests passed, valid syntax, successful execution
and 3 good practices, the score equals the floor of the exact weighted sum
and is at most 100. -/
theorem c2_overall_score_witness :
    ((_calculate_overall_score 2 4 true true 3 : Int) = ⌊overallScoreRat 2 4 true true 3⌋
     ∧ _calculate_overall_score 2 4 true true 3 ≤ 100) :=
  c2_overall_score_formula_and_bounds 2 4 true true 3 (by decide)

/-- C8 counterexample: on a concrete response whose only failing test has
BOTH an error message (a NameError) and a non-empty mismatched output, the
matcher emits the output-diff note in addition to the labeled issue — the
claim that a note is emitted only for failing tests with no error message
is false. -/
theorem c8_counterexample_note_despite_error :
    (_analyze_logic exResponse).output_patterns = ["Expected \x27y\x27 but got \x27x\x27"]
    ∧ (_analyze_logic exResponse).logic_issues = ["Variable not defined before use"]
    ∧ exResponse.test_results = [exFailingResult]
    ∧ exFailingResult.error_message = some "NameError: name \x27z\x27 is not defined" := by
  refine ⟨by decide, by decide, rfl, rfl⟩

/-- C8 (amended): the matcher emits a labeled issue for exactly the failing
TestResults whose non-empty error message matches a known substring (first
match of NameError → "Variable not defined before use", TypeError →
"Incorrect data type usage", IndentationError → "Incorrect indentation"),
and emits an output-diff note ("Expected X but got Y") for exactly the
failing tests whose actual and expected outputs are both non-empty and
differ — regardless of whether the test carries an error message. -/
theorem c8_logic_pattern_characterization (resp : CodeExecutionResponse) :
    (∀ s : String, s ∈ (_analyze_logic resp).logic_issues
      ↔ ∃ t, t ∈ resp.test_results ∧ t.passed = false
          ∧ ∃ m, t.error_message = some m ∧ m ≠ "" ∧ classifyErrorMsg m = some s)
    ∧ (∀ s : String, s ∈ (_analyze_logic resp).output_patterns
      ↔ ∃ t, t ∈ resp.test_results ∧ t.passed = false ∧ outputDiffNote t = some s) := by
  constructor
  · intro s
    simp only [_analyze_logic, List.mem_filterMap, List.mem_filter, Bool.not_eq_true']
    constructor
    · rintro ⟨t, ⟨ht, hp⟩, hf⟩
      refine ⟨t, ht, hp, ?_⟩
      cases hm : t.error_message with
      | none => rw [hm] at hf; simp at hf
      | some m =>
          rw [hm] at hf
          by_cases hm0 : m = ""
          · simp [hm0] at hf
          · refine ⟨m, rfl, hm0, ?_⟩
            simpa [hm0] using hf
    · rintro ⟨t, ht, hp, m, hm, hm0, hc⟩
      refine ⟨t, ⟨ht, hp⟩, ?_⟩
      rw [hm]
      simpa [hm0] using hc
  · intro s
    simp only [_analyze_logic, List.mem_filterMap, List.mem_filter, Bool.not_eq_true']
    constructor
    · rintro ⟨t, ⟨ht, hp⟩, hf⟩
      exact ⟨t, ht, hp, hf⟩
    · rintro ⟨t, ht, hp, hf⟩
      exact ⟨t, ⟨ht, hp⟩, hf⟩

/-- C8 witness: on the concrete response, the NameError-labeled issue is
emitted for the failing test. -/
theorem c8_logic_pattern_witness :
    "Variable not defined before use" ∈ (_analyze_logic exResponse).logic_issues :=
  ((c8_logic_pattern_characterization exResponse).1 "Variable not defined before use").mpr
    ⟨exFailingResult, by decide, rfl,
      "NameError: name \x27z\x27 is not defined", rfl, by decide, by decide⟩

/-- C9 counterexample: with invalid syntax AND an undefined-variable logic
issue (and one failed test, age 12), the implementation emits the syntax
hint, the logic hint and the failure-count hint, while the spec's
"else"-structured assembly gives the syntax hint, failure-count hint and
generic hint: the two differ, so the claimed assembly is not what the code
does. -/
theorem c9_counterexample_syntax_and_logic_hints :
    _generate_adaptive_hints exRespTotals 12 exSyntaxInvalid exLogicVar
      ≠ specHintAssembly exRespTotals 12 exSyntaxInvalid exLogicVar := by
  decide

/-- C9 (amended): the hint list is take-3 of: the syntax hint when the
parse failed, FOLLOWED BY (not mutually exclusive with) the hints converted
from the first two logic-issue labels, then the failure-count hint when
any tests failed, then one age-banded generic hint; it therefore always
has at most 3 entries, in this priority order, and whenever syntax is
invalid its first entry is the syntax hint. -/
theorem c9_hint_assembly (resp : CodeExecutionResponse) (age : Nat)
    (synA : SyntaxAnalysis) (logA : LogicAnalysis) :
    ((_generate_adaptive_hints resp age synA logA).length ≤ 3)
    ∧ (_generate_adaptive_hints resp age synA logA
        = List.take 3 ((if synA.is_valid then [] else [syntaxHintMsg])
            ++ ((logA.logic_issues.take 2).filterMap issueToHint
            ++ ((if 0 < resp.total_tests - resp.passed_tests
                 then [failedTestsHintMsg (resp.total_tests - resp.passed_tests)]
                 else [])
            ++ [if age ≤ 10 then youngHintMsg else olderHintMsg]))))
    ∧ (synA.is_valid = false →
        (_generate_adaptive_hints resp age synA logA).head? = some syntaxHintMsg) := by
  refine ⟨?_, ?_, ?_⟩
  · rw [_generate_adaptive_hints]
    simp only [List.length_take]
    omega
  · rw [_generate_adaptive_hints]
    simp [List.append_assoc]
  · intro hv
    rw [_generate_adaptive_hints, hv]
    simp

/-- C9 witness: on the concrete invalid-syntax inputs, the first hint is
the syntax hint. -/
theorem c9_hint_assembly_witness :
    (_generate_adaptive_hints exRespTotals 12 exSyntaxInvalid exLogicVar).head?
      = some syntaxHintMsg :=
  (c9_hint_assembly exRespTotals 12 exSyntaxInvalid exLogicVar).2.2 rfl

end AITutor
